import Mathlib

/-!
Verification of the jimaku front door (src/main.rs) and the TMDB identifier
codec (src/tmdb.rs), as a shallow embedding.

Strings from the Rust source (byte strings, ALPN identifiers, error context
messages) are modelled as Lean `String` or `List Char` values.  Machine
integers (`u32`) are modelled as `Nat` with explicit bounds where overflow
matters.  Asynchronous control flow is modelled by explicit event lists: the
accept loop consumes a list of accept-time events, each spawned per-connection
task is a pure function from the connection's fate (ClientHello peek outcome,
handshake outcome) to an observable handler outcome.
-/

namespace Tmdb

/-- TMDB identifier, from src/tmdb.rs lines 19-31.  The Rust `id` field is a
`u32`; it is modelled as a `Nat`, with the 32-bit bound carried as an explicit
hypothesis where it matters. -/
inductive Id where
  | tv (id : Nat)
  | movie (id : Nat)
deriving DecidableEq

/-- The integer component of an `Id`. -/
def Id.idVal : Id → Nat
  | Id.tv n => n
  | Id.movie n => n

/-- Number of values of a `u32`: 2 to the 32. -/
def U32_SIZE : Nat := 4294967296

/-- Decimal digits of a positive number, most significant first; `[]` for 0.
`Nat.digitChar` maps 0-9 to the matching ASCII digit character, as the Rust
`Display` implementation for `u32` does. -/
def natDigitsAux (n : Nat) : List Char :=
  if h : n = 0 then []
  else natDigitsAux (n / 10) ++ [Nat.digitChar (n % 10)]
decreasing_by exact Nat.div_lt_self (Nat.pos_of_ne_zero h) (by decide)

/-- Decimal printing of a nonnegative integer, as Rust `Display` for `u32`
renders the `id` field (no sign, no padding, `0` for zero). -/
def natToString (n : Nat) : List Char :=
  if n = 0 then ['0'] else natDigitsAux n

/-- `Display for Id`, src/tmdb.rs lines 74-87: writes the kind key, a colon,
then the decimal id. -/
def Id.toChars : Id → List Char
  | Id.tv n => ("tv:").data ++ natToString n
  | Id.movie n => ("movie:").data ++ natToString n

/-- Rust `str::split_once`: splits at the first occurrence of the separator,
returning the parts before and after it, or `none` when it does not occur. -/
def split_once : List Char → Char → Option (List Char × List Char)
  | [], _ => none
  | c :: rest, sep =>
    if c = sep then some ([], rest)
    else match split_once rest sep with
      | none => none
      | some kv => some (c :: kv.1, kv.2)

/-- ASCII decimal digit test. -/
def isAsciiDigit (c : Char) : Bool := 48 ≤ c.toNat && c.toNat ≤ 57

/-- Value of a digit string, most significant digit first. -/
def digitsVal (cs : List Char) : Nat :=
  cs.foldl (fun acc c => acc * 10 + (c.toNat - 48)) 0

/-- Rust `u32::from_str` (the `value.parse()` calls in src/tmdb.rs lines
97-98): an optional leading plus sign, then one or more ASCII decimal digits;
the checked accumulation fails exactly when the value does not fit in 32 bits. -/
def parse_u32 (cs : List Char) : Option Nat :=
  let ds := match cs with
    | c :: rest => if c = '+' then rest else c :: rest
    | [] => []
  if ds.isEmpty then none
  else if ds.all isAsciiDigit then
    if digitsVal ds < U32_SIZE then some (digitsVal ds) else none
  else none

/-- The parse error type of src/tmdb.rs line 140. -/
structure InvalidId where
deriving DecidableEq

/-- `FromStr for Id`, src/tmdb.rs lines 89-102: split at the first colon;
dispatch on the key being `tv` or `movie`; parse the value as a `u32`; any
failure is `InvalidId`. -/
def Id.from_str (cs : List Char) : Except InvalidId Id :=
  match split_once cs ':' with
  | none => Except.error InvalidId.mk
  | some kv =>
    if kv.1 = ("tv").data then
      match parse_u32 kv.2 with
      | some n => Except.ok (Id.tv n)
      | none => Except.error InvalidId.mk
    else if kv.1 = ("movie").data then
      match parse_u32 kv.2 with
      | some n => Except.ok (Id.movie n)
      | none => Except.error InvalidId.mk
    else Except.error InvalidId.mk

end Tmdb

namespace Server

/-- The reserved domain-validation ALPN identifier (the byte string
`acme-tls/1` from the TLS-ALPN-01 challenge). -/
def acmeTlsAlpnName : String := "acme-tls/1"

/-- The part of a parsed ClientHello that run_server inspects: the requested
ALPN protocol list. -/
structure ClientHello where
  alpn : List String
deriving DecidableEq

/-- Modelled from the spec: `rustls_acme::is_tls_alpn_challenge` (library code,
not under src/) reports whether the ClientHello ALPN protocol list contains
the reserved domain-validation identifier. -/
def is_tls_alpn_challenge (hello : ClientHello) : Bool :=
  hello.alpn.contains acmeTlsAlpnName

/-- The configuration fields that run_server (src/main.rs) consults. -/
structure Config where
  production : Bool
  port : Nat
  domains : List String
  contact_emails : List String
  lets_encrypt_production : Bool
deriving DecidableEq

/-- The two serving modes of run_server. -/
inductive Mode where
  | plain
  | encrypted
deriving DecidableEq

/-- Serving-mode dispatch, src/main.rs line 144: plain serving unless the
production flag is set and the bound port is 443. -/
def serveMode (c : Config) : Mode :=
  if !c.production || c.port != 443 then Mode.plain else Mode.encrypted

/-- The crate name, used to build cache paths. -/
def PROGRAM_NAME : String := "jimaku"

/-- The data handed to the ACME lifecycle manager. -/
structure AcmeParams where
  domains : List String
  contacts : List String
  cache_dir : String
deriving DecidableEq

/-- AcmeConfig construction, src/main.rs lines 154-162: the user cache
directory (absent gives a fatal context error) extended with the program name
and `rustls_acme_cache`; the configured domains; each contact email prefixed
with `mailto:`. -/
def acmeSetup (c : Config) (cacheBase : Option String) : Except String AcmeParams :=
  match cacheBase with
  | none => Except.error ("Could not find appropriate cache location for ACME")
  | some base => Except.ok
      { domains := c.domains
      , contacts := c.contact_emails.map (fun x => "mailto:" ++ x)
      , cache_dir := base ++ "/" ++ PROGRAM_NAME ++ "/rustls_acme_cache" }

/-- Modelled from the spec: the base ALPN list of the challenge TLS
configuration produced by the lifecycle manager (library code, not under
src/) holds exactly the reserved domain-validation identifier. -/
def challengeBaseAlpn : List String := [acmeTlsAlpnName]

/-- Modelled from the spec: the base ALPN list of the default TLS
configuration produced by the lifecycle manager (library code, not under
src/) is empty; the ordinary path advertises exactly what run_server adds. -/
def defaultBaseAlpn : List String := []

/-- src/main.rs line 164: the application protocols, in preference order. -/
def supported_alpn_protocols : List String := ["h2", "http/1.1"]

/-- src/main.rs lines 165-169: the challenge configuration's ALPN list after
run_server extends it with the application protocols. -/
def challengeAlpn : List String := challengeBaseAlpn ++ supported_alpn_protocols

/-- src/main.rs lines 166-172: the default configuration's ALPN list after
run_server extends it with the application protocols. -/
def defaultAlpn : List String := defaultBaseAlpn ++ supported_alpn_protocols

/-- The TLS configuration bundle a connection handler can select. -/
inductive Bundle where
  | challengeConfig
  | defaultConfig
deriving DecidableEq

/-- The fate of one accepted connection in encrypted mode: the outcome of the
ClientHello peek (`none` models a transport error such as a truncated
handshake), and whether completing the handshake with the selected
configuration succeeds. -/
structure ConnEvent where
  peek : Option ClientHello
  handshakeOk : Bool
deriving DecidableEq

/-- What one spawned per-connection task observably does. -/
structure HandlerOutcome where
  /-- The TLS configuration selected for the handshake, if the peek got far
  enough to select one. -/
  chosen : Option Bundle
  /-- Whether the TLS-ALPN-01 validation log line was emitted. -/
  loggedProbe : Bool
  /-- Whether the decrypted stream was handed to the hyper connection-serving
  routine backed by the tower service (the request-processing pipeline). -/
  handedToPipeline : Bool
  /-- Whether the task panicked (an `unwrap` on a failed peek or handshake).
  The runtime contains such a panic to this one spawned task. -/
  panicked : Bool
  /-- Whether the error became visible: the default panic hook prints the
  unwrapped error when the task panics. -/
  errorReported : Bool
deriving DecidableEq

/-- The per-connection task spawned by the encrypted-mode accept loop,
src/main.rs lines 189-210.  A failed ClientHello peek hits the `unwrap` on
line 190: the task panics, the panic hook reports the error, and the runtime
contains the panic to this task.  Otherwise the task selects the challenge
configuration exactly when `is_tls_alpn_challenge` holds of the ClientHello
(logging the probe), completes the handshake (a failure hits the `unwrap` on
line 194 or 196, again a contained, reported panic), and in either branch
hands the resulting decrypted stream to the hyper connection-serving routine
over the tower service. -/
def handleConn (ev : ConnEvent) : HandlerOutcome :=
  match ev.peek with
  | none =>
      { chosen := none, loggedProbe := false, handedToPipeline := false
      , panicked := true, errorReported := true }
  | some hello =>
      let probe := is_tls_alpn_challenge hello
      let bundle := if probe then Bundle.challengeConfig else Bundle.defaultConfig
      if ev.handshakeOk then
        { chosen := some bundle, loggedProbe := probe, handedToPipeline := true
        , panicked := false, errorReported := false }
      else
        { chosen := some bundle, loggedProbe := probe, handedToPipeline := false
        , panicked := true, errorReported := true }

/-- An event observed at the accept loop: a connection was accepted (with its
eventual per-connection fate), the `accept` call itself returned an error, or
an interrupt/termination signal was delivered to the process. -/
inductive AcceptEvent where
  | conn (ev : ConnEvent)
  | acceptFailure (msg : String)
  | signal
deriving DecidableEq

/-- The encrypted-mode accept loop, src/main.rs lines 183-211.  Each accepted
connection is handled in its own spawned task, whose outcome is `handleConn`
of that connection's fate, independent of every other connection.  An error
from `accept` itself is returned (with the `Failed during accept loop`
context), ending the loop; nothing after it is served.  The loop body never
awaits the shutdown signal — there is no `select` on it, and the graceful
axum serve call after the loop (lines 214-218) is unreachable — so a
delivered signal is simply not observed by the loop.  The result is the list
of handler outcomes of the served connections plus the terminal accept error,
if any. -/
def encryptedLoop : List AcceptEvent → List HandlerOutcome × Option String
  | [] => ([], none)
  | AcceptEvent.conn ev :: rest =>
      (handleConn ev :: (encryptedLoop rest).1, (encryptedLoop rest).2)
  | AcceptEvent.acceptFailure m :: _ => ([], some ("Failed during accept loop: " ++ m))
  | AcceptEvent.signal :: rest => encryptedLoop rest

/-- An event observed by the plain-mode server: an accepted connection or a
delivered shutdown signal. -/
inductive PlainEvent where
  | conn
  | signal
deriving DecidableEq

/-- What the plain-mode server does with one accepted connection. -/
structure PlainOutcome where
  tlsAttempted : Bool
  handedToPipeline : Bool
deriving DecidableEq

/-- Modelled from the spec: `axum::serve(listener, service)` with
`with_graceful_shutdown(shutdown_signal())`, src/main.rs lines 145-148
(library code, not under src/).  Every accepted connection is handed directly
to the request-processing pipeline with no TLS negotiation; once the shutdown
signal fires the acceptor admits no further connections and in-flight
requests are drained. -/
def plainServe : List PlainEvent → List PlainOutcome
  | [] => []
  | PlainEvent.signal :: _ => []
  | PlainEvent.conn :: rest =>
      { tlsAttempted := false, handedToPipeline := true } :: plainServe rest

/-- The observable outcome of one run_server call. -/
structure RunOutcome where
  servedPlain : List PlainOutcome
  servedEncrypted : List HandlerOutcome
  failure : Option String
deriving DecidableEq

/-- run_server, src/main.rs lines 113-219, after the router is built: binding
the listener precedes both serving modes, and a bind error is returned with
the `Could not bind to` context before any connection is accepted; otherwise
the serving mode chosen from the configuration decides whether connections go
through `plainServe` or through the encrypted accept loop. -/
def run_server (c : Config) (bind : Except String Unit) (evs : List AcceptEvent)
    (pevs : List PlainEvent) : RunOutcome :=
  match bind with
  | Except.error e =>
      { servedPlain := [], servedEncrypted := []
      , failure := some ("Could not bind to " ++ e) }
  | Except.ok _ =>
      match serveMode c with
      | Mode.plain =>
          { servedPlain := plainServe pevs, servedEncrypted := [], failure := none }
      | Mode.encrypted =>
          { servedPlain := [], servedEncrypted := (encryptedLoop evs).1
          , failure := (encryptedLoop evs).2 }

/-- The observable outcome of the whole process around one run_server call. -/
structure MainOutcome where
  exitCode : Nat
  errorPrinted : Bool
deriving DecidableEq

/-- main, src/main.rs lines 311-330: a run error is printed to stderr and
logged, after which main returns unit — the process exit status is 0 in both
the error and the success case. -/
def mainOutcome (r : RunOutcome) : MainOutcome :=
  match r.failure with
  | some _ => { exitCode := 0, errorPrinted := true }
  | none => { exitCode := 0, errorPrinted := false }

/-- A production configuration bound to port 443, for concrete scenarios. -/
def prodConfig : Config :=
  { production := true, port := 443, domains := ["example.test"]
  , contact_emails := ["admin@example.test"], lets_encrypt_production := true }

/-- A ClientHello advertising only the domain-validation identifier. -/
def probeHello : ClientHello := { alpn := [acmeTlsAlpnName] }

/-- A ClientHello of an ordinary HTTP/2 client. -/
def ordinaryHello : ClientHello := { alpn := ["h2", "http/1.1"] }

/-- A validation probe whose handshake completes. -/
def probeEvent : ConnEvent := { peek := some probeHello, handshakeOk := true }

/-- An ordinary connection whose handshake completes. -/
def ordinaryEvent : ConnEvent := { peek := some ordinaryHello, handshakeOk := true }

/-- A connection whose ClientHello peek fails (truncated handshake). -/
def peekFailEvent : ConnEvent := { peek := none, handshakeOk := true }

/-- An ordinary connection whose ClientHello parses but whose handshake then
fails (client disconnect mid-handshake, unsupported protocol). -/
def handshakeFailEvent : ConnEvent := { peek := some ordinaryHello, handshakeOk := false }

/-- The run outcome when binding the listener fails. -/
def bindFailRun : RunOutcome :=
  run_server prodConfig (Except.error ("address in use")) [] []

end Server

section TmdbLemmas

open Tmdb

theorem digitChar_toNat_eq : ∀ d, d < 10 → (Nat.digitChar d).toNat = 48 + d := by decide

theorem digitChar_isAsciiDigit : ∀ d, d < 10 → isAsciiDigit (Nat.digitChar d) = true := by decide

theorem digitsVal_append (l : List Char) (c : Char) :
    digitsVal (l ++ [c]) = digitsVal l * 10 + (c.toNat - 48) := by
  unfold digitsVal
  rw [List.foldl_append]
  rfl

theorem digitsVal_natDigitsAux (n : Nat) : digitsVal (natDigitsAux n) = n := by
  induction n using Nat.strong_induction_on with
  | _ n ih =>
    unfold natDigitsAux
    by_cases h : n = 0
    · subst h; rfl
    · rw [dif_neg h, digitsVal_append,
        ih (n / 10) (Nat.div_lt_self (Nat.pos_of_ne_zero h) (by decide)),
        digitChar_toNat_eq (n % 10) (Nat.mod_lt n (by decide))]
      omega

theorem natDigitsAux_all_digits (n : Nat) : (natDigitsAux n).all isAsciiDigit = true := by
  induction n using Nat.strong_induction_on with
  | _ n ih =>
    unfold natDigitsAux
    by_cases h : n = 0
    · subst h; rfl
    · rw [dif_neg h, List.all_append]
      have h1 := ih (n / 10) (Nat.div_lt_self (Nat.pos_of_ne_zero h) (by decide))
      have h2 := digitChar_isAsciiDigit (n % 10) (Nat.mod_lt n (by decide))
      simp [h1, h2]

theorem natDigitsAux_ne_nil (n : Nat) (h : n ≠ 0) : natDigitsAux n ≠ [] := by
  unfold natDigitsAux
  rw [dif_neg h]
  simp

theorem parse_u32_all_digits (l : List Char) (h1 : l ≠ [])
    (h2 : l.all isAsciiDigit = true) (h3 : digitsVal l < U32_SIZE) :
    parse_u32 l = some (digitsVal l) := by
  cases l with
  | nil => exact absurd rfl h1
  | cons c t =>
    have hc : isAsciiDigit c = true := by
      rw [List.all_cons] at h2
      exact (Bool.and_eq_true _ _ |>.mp h2).1
    have hplus : ¬ c = '+' := by
      intro he
      rw [he] at hc
      exact absurd hc (by decide)
    unfold parse_u32
    simp only [if_neg hplus, List.isEmpty_cons, h2, if_pos h3, if_true]
    rfl

theorem parse_u32_natToString (n : Nat) (h : n < U32_SIZE) :
    parse_u32 (natToString n) = some n := by
  by_cases h0 : n = 0
  · subst h0; rfl
  · have heq : natToString n = natDigitsAux n := by
      unfold natToString; rw [if_neg h0]
    rw [heq,
      parse_u32_all_digits (natDigitsAux n) (natDigitsAux_ne_nil n h0)
        (natDigitsAux_all_digits n) (by rw [digitsVal_natDigitsAux]; exact h),
      digitsVal_natDigitsAux]

theorem from_str_tv_key (v : List Char) :
    Id.from_str (('t') :: ('v') :: (':') :: v) =
      (match parse_u32 v with
        | some n => Except.ok (Id.tv n)
        | none => Except.error InvalidId.mk) := rfl

theorem from_str_movie_key (v : List Char) :
    Id.from_str (('m') :: ('o') :: ('v') :: ('i') :: ('e') :: (':') :: v) =
      (match parse_u32 v with
        | some n => Except.ok (Id.movie n)
        | none => Except.error InvalidId.mk) := rfl

theorem from_str_toChars (i : Id) (h : i.idVal < U32_SIZE) :
    Id.from_str i.toChars = Except.ok i := by
  cases i with
  | tv n =>
    rw [show Id.toChars (Id.tv n) = ('t') :: ('v') :: (':') :: natToString n from rfl,
      from_str_tv_key, parse_u32_natToString n h]
  | movie n =>
    rw [show Id.toChars (Id.movie n) =
        ('m') :: ('o') :: ('v') :: ('i') :: ('e') :: (':') :: natToString n from rfl,
      from_str_movie_key, parse_u32_natToString n h]

theorem split_once_eq_none_iff (cs : List Char) (sep : Char) :
    split_once cs sep = none ↔ cs.contains sep = false := by
  induction cs with
  | nil => simp [split_once]
  | cons c t ih =>
    by_cases h : c = sep
    · subst h
      simp [split_once]
    · rw [show split_once (c :: t) sep =
          (match split_once t sep with
            | none => none
            | some kv => some (c :: kv.1, kv.2)) by rw [split_once, if_neg h]]
      have hc : (sep == c) = false := beq_eq_false_iff_ne.mpr (fun he => h he.symm)
      cases hsp : split_once t sep with
      | none =>
        have ht := ih.mp hsp
        have hcc : (c :: t).contains sep = false := by
          rw [List.contains_cons, hc, ht]
          rfl
        rw [hcc]
        exact Iff.intro (fun _ => rfl) (fun _ => rfl)
      | some kv =>
        have ht : t.contains sep = true := by
          cases hct : t.contains sep
          · rw [ih.mpr hct] at hsp
            exact absurd hsp (by simp)
          · rfl
        have hcc : (c :: t).contains sep = true := by
          rw [List.contains_cons, ht, Bool.or_true]
        rw [hcc]
        exact Iff.intro (fun hx => Option.noConfusion hx) (fun hx => Bool.noConfusion hx)

theorem from_str_error_iff (cs : List Char) :
    Id.from_str cs = Except.error InvalidId.mk ↔
      (split_once cs ':' = none ∨
        ∃ kv, split_once cs ':' = some kv ∧
          ((¬ kv.1 = ("tv").data ∧ ¬ kv.1 = ("movie").data) ∨ parse_u32 kv.2 = none)) := by
  unfold Id.from_str
  cases hs : split_once cs ':' with
  | none => simp
  | some kv =>
    by_cases h1 : kv.1 = ("tv").data
    · cases hp : parse_u32 kv.2 with
      | some n => simp [h1, hp]
      | none => simp [h1, hp]
    · by_cases h2 : kv.1 = ("movie").data
      · cases hp : parse_u32 kv.2 with
        | some n => simp [h1, h2, hp]
        | none => simp [h1, h2, hp]
      · simp [h1, h2]

end TmdbLemmas

section ServerLemmas

theorem serveMode_encrypted_iff (c : Server.Config) :
    Server.serveMode c = Server.Mode.encrypted ↔ (c.production = true ∧ c.port = 443) := by
  unfold Server.serveMode
  cases hp : c.production with
  | false => simp
  | true =>
    by_cases hq : c.port = 443
    · have hb : (c.port != 443) = false := by
        simp [hq]
      simp [hb, hq]
    · have hb : (c.port != 443) = true := by
        simp [bne_iff_ne, hq]
      simp [hb, hq]

theorem plainServe_all_outcomes (pevs : List Server.PlainEvent) :
    (Server.plainServe pevs).all (fun o => !o.tlsAttempted && o.handedToPipeline) = true := by
  induction pevs with
  | nil => rfl
  | cons e t ih =>
    cases e with
    | signal => rfl
    | conn => simpa [Server.plainServe] using ih

theorem plainServe_signal_stops (n : Nat) (post : List Server.PlainEvent) :
    Server.plainServe
        (List.replicate n Server.PlainEvent.conn ++ Server.PlainEvent.signal :: post)
      = Server.plainServe (List.replicate n Server.PlainEvent.conn) := by
  induction n with
  | zero => rfl
  | succ k ih => simp [List.replicate_succ, Server.plainServe, ih]

theorem encryptedLoop_conns (l : List Server.ConnEvent) :
    Server.encryptedLoop (l.map Server.AcceptEvent.conn) = (l.map Server.handleConn, none) := by
  induction l with
  | nil => rfl
  | cons e t ih => simp [Server.encryptedLoop, ih]

theorem encryptedLoop_acceptFailure_result (pre : List Server.ConnEvent) (m : String)
    (post : List Server.AcceptEvent) :
    Server.encryptedLoop
        (pre.map Server.AcceptEvent.conn ++ Server.AcceptEvent.acceptFailure m :: post)
      = (pre.map Server.handleConn, some (("Failed during accept loop: ") ++ m)) := by
  induction pre with
  | nil => rfl
  | cons e t ih => simp [Server.encryptedLoop, ih]

theorem handleConn_failure_fields (bad : Server.ConnEvent)
    (h : bad.peek = none ∨ bad.handshakeOk = false) :
    (Server.handleConn bad).panicked = true ∧
    (Server.handleConn bad).errorReported = true ∧
    (Server.handleConn bad).handedToPipeline = false := by
  unfold Server.handleConn
  cases hpeek : bad.peek with
  | none => exact ⟨rfl, rfl, rfl⟩
  | some hello =>
    have hk : bad.handshakeOk = false := by
      cases h with
      | inl hl => rw [hpeek] at hl; exact Option.noConfusion hl
      | inr hr => exact hr
    simp [hk]

end ServerLemmas

/-- Claim C1: in encrypted mode, every accepted connection whose ClientHello ALPN
protocol list contains the reserved domain-validation identifier has its handshake
completed with the challenge TLS configuration, and every other connection with a
parsed ClientHello has it completed with the default TLS configuration. -/
theorem c1_probe_classification (ev : Server.ConnEvent) (hello : Server.ClientHello)
    (h : ev.peek = some hello) :
    (Server.handleConn ev).chosen =
      some (if hello.alpn.contains Server.acmeTlsAlpnName then
        Server.Bundle.challengeConfig else Server.Bundle.defaultConfig) := by
  unfold Server.handleConn
  rw [h]
  cases hk : ev.handshakeOk <;> simp [Server.is_tls_alpn_challenge, hk]

/-- Witness for C1: a probe connection presenting exactly the domain-validation
identifier is classified to the challenge configuration. -/
theorem c1_witness :
    (Server.handleConn Server.probeEvent).chosen =
      some (if Server.probeHello.alpn.contains Server.acmeTlsAlpnName then
        Server.Bundle.challengeConfig else Server.Bundle.defaultConfig) :=
  c1_probe_classification Server.probeEvent Server.probeHello rfl

/-- Counterexample to C2: a domain-validation probe whose handshake completes has its
decrypted stream handed to the hyper connection-serving routine over the tower
service — the request-processing pipeline — contradicting the claim that the stream
is never handed to the pipeline and the connection is closed after the handshake. -/
theorem c2_counterexample :
    (Server.handleConn Server.probeEvent).chosen = some Server.Bundle.challengeConfig ∧
    (Server.handleConn Server.probeEvent).handedToPipeline = true :=
  ⟨rfl, rfl⟩

/-- Claim C2 as amended: for every probe connection the challenge configuration
completes the handshake and the validation request is logged, after which the
decrypted stream is handed to the same connection-serving routine as ordinary
traffic; the code does not itself close probe connections after the handshake. -/
theorem c2_amended_probe (ev : Server.ConnEvent) (hello : Server.ClientHello)
    (h1 : ev.peek = some hello) (h2 : hello.alpn.contains Server.acmeTlsAlpnName = true)
    (h3 : ev.handshakeOk = true) :
    Server.handleConn ev =
      { chosen := some Server.Bundle.challengeConfig, loggedProbe := true
      , handedToPipeline := true, panicked := false, errorReported := false } := by
  unfold Server.handleConn
  rw [h1]
  have hp : Server.is_tls_alpn_challenge hello = true := h2
  simp [hp, h3]

/-- Witness for the amended C2 at a concrete probe connection. -/
theorem c2_witness :
    Server.handleConn Server.probeEvent =
      { chosen := some Server.Bundle.challengeConfig, loggedProbe := true
      , handedToPipeline := true, panicked := false, errorReported := false } :=
  c2_amended_probe Server.probeEvent Server.probeHello rfl rfl rfl

/-- Claim C3: the serving mode is selected once at startup from the configuration —
encrypted exactly when the production flag is set and the port is 443 — and in plain
mode every accepted connection is handed to the request-processing pipeline with no
TLS negotiation attempted. -/
theorem c3_mode_selection (c : Server.Config) (pevs : List Server.PlainEvent) :
    (Server.serveMode c = Server.Mode.encrypted ↔ (c.production = true ∧ c.port = 443)) ∧
    (Server.plainServe pevs).all (fun o => !o.tlsAttempted && o.handedToPipeline) = true :=
  ⟨serveMode_encrypted_iff c, plainServe_all_outcomes pevs⟩

/-- Witness for C3 at the production configuration and one plain connection. -/
theorem c3_witness :
    (Server.serveMode Server.prodConfig = Server.Mode.encrypted ↔
      (Server.prodConfig.production = true ∧ Server.prodConfig.port = 443)) ∧
    (Server.plainServe [Server.PlainEvent.conn]).all
      (fun o => !o.tlsAttempted && o.handedToPipeline) = true :=
  c3_mode_selection Server.prodConfig [Server.PlainEvent.conn]

/-- Counterexample to C4: in encrypted mode (production flag set, port 443) a
connection arriving after an interrupt or termination signal is still admitted,
handled, and handed to the pipeline, and the loop does not stop — the encrypted
accept loop has no graceful-shutdown handling. -/
theorem c4_counterexample :
    Server.serveMode Server.prodConfig = Server.Mode.encrypted ∧
    Server.encryptedLoop
        [Server.AcceptEvent.signal, Server.AcceptEvent.conn Server.ordinaryEvent]
      = ([Server.handleConn Server.ordinaryEvent], none) ∧
    (Server.handleConn Server.ordinaryEvent).handedToPipeline = true :=
  ⟨rfl, rfl, rfl⟩

/-- Claim C4 as amended: in plain mode, receipt of an interrupt or termination signal
stops the acceptor from admitting further connections (with in-flight requests
drained); in encrypted mode the accept loop never observes the shutdown signal and
continues admitting connections as if it had not been delivered. -/
theorem c4_amended_shutdown (n : Nat) (post : List Server.PlainEvent)
    (evs : List Server.AcceptEvent) :
    Server.plainServe
        (List.replicate n Server.PlainEvent.conn ++ Server.PlainEvent.signal :: post)
      = Server.plainServe (List.replicate n Server.PlainEvent.conn) ∧
    Server.encryptedLoop (Server.AcceptEvent.signal :: evs) = Server.encryptedLoop evs :=
  ⟨plainServe_signal_stops n post, rfl⟩

/-- Witness for the amended C4: one plain connection before the signal, one after. -/
theorem c4_witness :
    Server.plainServe
        (List.replicate 1 Server.PlainEvent.conn ++
          Server.PlainEvent.signal :: [Server.PlainEvent.conn])
      = Server.plainServe (List.replicate 1 Server.PlainEvent.conn) ∧
    Server.encryptedLoop
        (Server.AcceptEvent.signal :: [Server.AcceptEvent.conn Server.ordinaryEvent])
      = Server.encryptedLoop [Server.AcceptEvent.conn Server.ordinaryEvent] :=
  c4_amended_shutdown 1 [Server.PlainEvent.conn] [Server.AcceptEvent.conn Server.ordinaryEvent]

/-- Counterexample to C5: when binding the listener fails, no connection is served
and the error propagates to the top level where it is printed — but the process exit
status is 0, not the non-zero outcome the claim states. -/
theorem c5_counterexample :
    Server.bindFailRun.servedPlain = [] ∧
    Server.bindFailRun.servedEncrypted = [] ∧
    Server.bindFailRun.failure = some (("Could not bind to ") ++ ("address in use")) ∧
    (Server.mainOutcome Server.bindFailRun).errorPrinted = true ∧
    (Server.mainOutcome Server.bindFailRun).exitCode = 0 :=
  ⟨rfl, rfl, rfl, rfl, rfl⟩

/-- Claim C5 as amended: a bind failure aborts run_server before any connection is
served in either mode, and the error propagates to the top level where it is printed
and logged; the process then exits with status 0, since main swallows the error
after reporting it. -/
theorem c5_amended_bind_failure (c : Server.Config) (e : String)
    (evs : List Server.AcceptEvent) (pevs : List Server.PlainEvent) :
    (Server.run_server c (Except.error e) evs pevs).servedPlain = [] ∧
    (Server.run_server c (Except.error e) evs pevs).servedEncrypted = [] ∧
    (Server.run_server c (Except.error e) evs pevs).failure
      = some (("Could not bind to ") ++ e) ∧
    (Server.mainOutcome (Server.run_server c (Except.error e) evs pevs)).errorPrinted = true ∧
    (Server.mainOutcome (Server.run_server c (Except.error e) evs pevs)).exitCode = 0 :=
  ⟨rfl, rfl, rfl, rfl, rfl⟩

/-- Witness for the amended C5 at a concrete permission-denied bind failure. -/
theorem c5_witness :
    (Server.run_server Server.prodConfig (Except.error ("permission denied"))
        [] []).servedPlain = [] ∧
    (Server.run_server Server.prodConfig (Except.error ("permission denied"))
        [] []).servedEncrypted = [] ∧
    (Server.run_server Server.prodConfig (Except.error ("permission denied"))
        [] []).failure = some (("Could not bind to ") ++ ("permission denied")) ∧
    (Server.mainOutcome (Server.run_server Server.prodConfig
        (Except.error ("permission denied")) [] [])).errorPrinted = true ∧
    (Server.mainOutcome (Server.run_server Server.prodConfig
        (Except.error ("permission denied")) [] [])).exitCode = 0 :=
  c5_amended_bind_failure Server.prodConfig ("permission denied") [] []

/-- Claim C6: a connection whose ClientHello peek or handshake fails in encrypted
mode panics its own spawned task, where the error is reported and the connection
dropped without reaching the pipeline, while every other connection in the loop —
before or after it — is handled exactly as its own fate dictates and the loop
processes the whole sequence without terminating. -/
theorem c6_connection_failure_isolated (pre post : List Server.ConnEvent)
    (bad : Server.ConnEvent) (h : bad.peek = none ∨ bad.handshakeOk = false) :
    Server.encryptedLoop ((pre ++ bad :: post).map Server.AcceptEvent.conn)
      = (pre.map Server.handleConn ++
          Server.handleConn bad :: post.map Server.handleConn, none) ∧
    (Server.handleConn bad).panicked = true ∧
    (Server.handleConn bad).errorReported = true ∧
    (Server.handleConn bad).handedToPipeline = false := by
  refine And.intro ?_ (handleConn_failure_fields bad h)
  rw [encryptedLoop_conns (pre ++ bad :: post), List.map_append, List.map_cons]

/-- Witness for C6, exercising both failing cases: a connection whose handshake
fails after a parsed ClientHello, surrounded by two healthy connections, and a
connection whose ClientHello peek itself fails. -/
theorem c6_witness :
    (Server.encryptedLoop
        (([Server.ordinaryEvent] ++ Server.handshakeFailEvent :: [Server.probeEvent]).map
          Server.AcceptEvent.conn)
      = ([Server.ordinaryEvent].map Server.handleConn ++
          Server.handleConn Server.handshakeFailEvent ::
            [Server.probeEvent].map Server.handleConn, none) ∧
      (Server.handleConn Server.handshakeFailEvent).panicked = true ∧
      (Server.handleConn Server.handshakeFailEvent).errorReported = true ∧
      (Server.handleConn Server.handshakeFailEvent).handedToPipeline = false) ∧
    (Server.encryptedLoop
        (([Server.ordinaryEvent] ++ Server.peekFailEvent :: [Server.probeEvent]).map
          Server.AcceptEvent.conn)
      = ([Server.ordinaryEvent].map Server.handleConn ++
          Server.handleConn Server.peekFailEvent ::
            [Server.probeEvent].map Server.handleConn, none) ∧
      (Server.handleConn Server.peekFailEvent).panicked = true ∧
      (Server.handleConn Server.peekFailEvent).errorReported = true ∧
      (Server.handleConn Server.peekFailEvent).handedToPipeline = false) :=
  ⟨c6_connection_failure_isolated [Server.ordinaryEvent] [Server.probeEvent]
      Server.handshakeFailEvent (Or.inr rfl),
    c6_connection_failure_isolated [Server.ordinaryEvent] [Server.probeEvent]
      Server.peekFailEvent (Or.inl rfl)⟩

/-- Claim C7: the default TLS configuration for ordinary traffic advertises exactly
the application protocols h2 and http/1.1 in that preference order, does not carry
the reserved domain-validation identifier, and that identifier appears in the
challenge configuration only. -/
theorem c7_alpn_advertised :
    Server.defaultAlpn = ["h2", "http/1.1"] ∧
    Server.defaultAlpn.contains Server.acmeTlsAlpnName = false ∧
    Server.challengeAlpn.contains Server.acmeTlsAlpnName = true :=
  ⟨rfl, rfl, rfl⟩

/-- Claim C8: the certificate lifecycle manager is configured with each contact email
surfaced as a mailto: URI, the configured domain set, and a local cache directory
for account-key and certificate persistence; a missing user cache directory is a
fatal context error. -/
theorem c8_acme_configuration (c : Server.Config) (base : String) :
    Server.acmeSetup c (some base) = Except.ok
      { domains := c.domains
      , contacts := c.contact_emails.map (fun x => "mailto:" ++ x)
      , cache_dir := base ++ "/" ++ Server.PROGRAM_NAME ++ "/rustls_acme_cache" } ∧
    Server.acmeSetup c none
      = Except.error ("Could not find appropriate cache location for ACME") :=
  ⟨rfl, rfl⟩

/-- Witness for C8 at the production configuration and a concrete cache base. -/
theorem c8_witness :
    Server.acmeSetup Server.prodConfig (some ("/home/user/.cache")) = Except.ok
      { domains := Server.prodConfig.domains
      , contacts := Server.prodConfig.contact_emails.map (fun x => "mailto:" ++ x)
      , cache_dir := ("/home/user/.cache") ++ "/" ++ Server.PROGRAM_NAME
          ++ "/rustls_acme_cache" } ∧
    Server.acmeSetup Server.prodConfig none
      = Except.error ("Could not find appropriate cache location for ACME") :=
  c8_acme_configuration Server.prodConfig ("/home/user/.cache")

/-- Claim C9: in encrypted mode an error from the accept call itself ends the whole
serving loop — only the connections accepted before it are served, nothing after it
is processed — and run_server returns that error with its accept-loop context. -/
theorem c9_accept_error_fatal (c : Server.Config) (pre : List Server.ConnEvent) (m : String)
    (post : List Server.AcceptEvent) (pevs : List Server.PlainEvent)
    (h : Server.serveMode c = Server.Mode.encrypted) :
    Server.encryptedLoop
        (pre.map Server.AcceptEvent.conn ++ Server.AcceptEvent.acceptFailure m :: post)
      = (pre.map Server.handleConn, some (("Failed during accept loop: ") ++ m)) ∧
    (Server.run_server c (Except.ok ())
        (pre.map Server.AcceptEvent.conn ++ Server.AcceptEvent.acceptFailure m :: post)
        pevs).failure
      = some (("Failed during accept loop: ") ++ m) := by
  constructor
  · exact encryptedLoop_acceptFailure_result pre m post
  · simp [Server.run_server, h, encryptedLoop_acceptFailure_result pre m post]

/-- Witness for C9: an accept error after one served connection, with further events
pending that are never processed. -/
theorem c9_witness :
    Server.encryptedLoop
        ([Server.ordinaryEvent].map Server.AcceptEvent.conn ++
          Server.AcceptEvent.acceptFailure ("connection reset")
            :: [Server.AcceptEvent.conn Server.probeEvent])
      = ([Server.ordinaryEvent].map Server.handleConn,
          some (("Failed during accept loop: ") ++ ("connection reset"))) ∧
    (Server.run_server Server.prodConfig (Except.ok ())
        ([Server.ordinaryEvent].map Server.AcceptEvent.conn ++
          Server.AcceptEvent.acceptFailure ("connection reset")
            :: [Server.AcceptEvent.conn Server.probeEvent])
        []).failure
      = some (("Failed during accept loop: ") ++ ("connection reset")) :=
  c9_accept_error_fatal Server.prodConfig [Server.ordinaryEvent] ("connection reset")
    [Server.AcceptEvent.conn Server.probeEvent] [] rfl

/-- Claim C10: every TMDB Id printed to its string form parses back to the original
Id, and parsing fails with InvalidId exactly when the input lacks a colon separator,
or the part before the first colon is neither tv nor movie, or the part after it is
not a valid u32. -/
theorem c10_id_roundtrip (i : Tmdb.Id) (h : i.idVal < Tmdb.U32_SIZE) (cs : List Char) :
    Tmdb.Id.from_str i.toChars = Except.ok i ∧
    (Tmdb.split_once cs ':' = none ↔ cs.contains ':' = false) ∧
    (Tmdb.Id.from_str cs = Except.error Tmdb.InvalidId.mk ↔
      (Tmdb.split_once cs ':' = none ∨
        ∃ kv, Tmdb.split_once cs ':' = some kv ∧
          ((¬ kv.1 = ("tv").data ∧ ¬ kv.1 = ("movie").data) ∨
            Tmdb.parse_u32 kv.2 = none))) :=
  ⟨from_str_toChars i h, split_once_eq_none_iff cs ':', from_str_error_iff cs⟩

/-- Witness for C10 at a concrete in-range Id and a concrete malformed string. -/
theorem c10_witness :
    (Tmdb.Id.movie 2024).idVal < Tmdb.U32_SIZE ∧
    Tmdb.Id.from_str (Tmdb.Id.movie 2024).toChars = Except.ok (Tmdb.Id.movie 2024) :=
  ⟨by decide, (c10_id_roundtrip (Tmdb.Id.movie 2024) (by decide) (("tv:x").data)).1⟩
